import Mathlib

/-!
Verification development for `src/mmalcam.c` (motion's Raspberry Pi MMAL
camera module).  The definitions below are a shallow embedding of the data
model and operations of that file: machine integers become `Int`/`Nat`,
fallible C calls are driven by an explicit environment of success flags,
NULL-able pointers become `Option`/`Bool` fields, and a NULL-pointer
dereference is modelled as the `none` outcome of an `Option`-valued function.
-/

namespace Mmalcam

/-- Success return code of the module (src/mmalcam.c line 29). -/
def MMALCAM_OK : Int := 0

/-- Error return code of the module (src/mmalcam.c line 30). -/
def MMALCAM_ERROR : Int := -1

/-- Minimum number of capture-port buffers enforced by
`create_camera_component` (src/mmalcam.c line 37). -/
def VIDEO_OUTPUT_BUFFERS_NUM : Nat := 3

/-- Modelled from the spec: the fatal-hardware error code `NETCAM_FATAL_ERROR`
returned by `mmalcam_next` for a NULL context. The constant is declared in the
host application's netcam header, which is not under `src/`; the spec calls it
`FatalHardware`. Its only relevant property is being distinct from success. -/
def NETCAM_FATAL_ERROR : Int := -2

/-- The frame-end completion flag bit of the external MMAL buffer API
(`MMAL_BUFFER_HEADER_FLAG_FRAME_END`, bit 2 of the flags word), tested by
`mmalcam_next` at src/mmalcam.c line 549. -/
def FLAG_FRAME_END : Nat := 4

/-- An MMAL buffer header: command/event code, flags word, payload length and
payload bytes (src/mmalcam.c uses `cmd`, `flags`, `length`, `data`). -/
structure MMBuffer where
  cmd : Nat
  flags : Nat
  length : Nat
  data : List Nat
deriving DecidableEq, Repr

/-- The acceptance test of `mmalcam_next` (src/mmalcam.c lines 549-550):
a data buffer (`cmd == 0`) carrying the frame-end flag whose length is
exactly the expected image size. -/
def validFrame (size : Nat) (b : MMBuffer) : Bool :=
  b.cmd == 0 && (b.flags &&& FLAG_FRAME_END != 0) && b.length == size

/-- `memcpy(dst, src, n)` on byte lists: the first `n` bytes of `dst` are
replaced by the first `n` bytes of `src` (src/mmalcam.c line 552). -/
def memcpyBytes (dst src : List Nat) (n : Nat) : List Nat :=
  src.take n ++ dst.drop n

/-- State threaded through the fetch loop of `mmalcam_next`: the caller's
output buffer `map`, the free buffers of the pool's queue (released buffers
are appended by `mmal_buffer_header_release`, resubmission takes the head via
`mmal_queue_get`), and the buffers sent back to the capture port so far. -/
structure FetchState where
  map : List Nat
  pool : List MMBuffer
  sent : List MMBuffer
deriving DecidableEq, Repr

/-- One iteration of the do/while loop of `mmalcam_next`
(src/mmalcam.c lines 545-573): test the dequeued buffer, copy it into `map`
when valid, release it back to the pool, and, when the capture port is
enabled, take a buffer from the pool queue and send it to the port.
`enabled` is the value `camera_capture_port->is_enabled` reads during this
iteration. Returns the new state and the `frame_complete` flag. -/
def fetchIter (size : Nat) (st : FetchState) (b : MMBuffer) (enabled : Bool) :
    FetchState × Bool :=
  let fc := validFrame size b
  let st1 := if fc then { st with map := memcpyBytes st.map b.data size } else st
  let st2 := { st1 with pool := st1.pool ++ [b] }
  let st3 :=
    if enabled then
      match st2.pool with
      | [] => st2
      | nb :: rest => { st2 with pool := rest, sent := st2.sent ++ [nb] }
    else st2
  (st3, fc)

/-- Result of running the fetch loop: `completed st fc` when the do/while
condition `(!frame_complete && port->is_enabled)` became false, `blocked st`
when the delivery sequence is exhausted while the loop would call
`mmal_queue_wait` again (i.e. the call blocks). -/
inductive LoopResult where
  | completed (st : FetchState) (frameComplete : Bool)
  | blocked (st : FetchState)
deriving DecidableEq, Repr

/-- The do/while fetch loop of `mmalcam_next` (src/mmalcam.c lines 545-574),
run over the sequence of deliveries `mmal_queue_wait` will hand out; each
delivery is paired with the port's `is_enabled` value during that
iteration. -/
def fetchLoop (size : Nat) (st : FetchState) :
    List (MMBuffer × Bool) → LoopResult
  | [] => .blocked st
  | (b, en) :: rest =>
    let r := fetchIter size st b en
    if !r.2 && en then fetchLoop size r.1 rest
    else .completed r.1 r.2

/-- The still-mode scheduling step at the tail of `mmalcam_next`
(src/mmalcam.c lines 578-594): sample the clock (`curr`), compute the delta
to the recorded `last_still_capture_time_ms` (`last`), sleep the remainder of
`still_capture_delay_ms` (`delay`) when the delta is smaller, retrigger the
capture, and record `curr` — the pre-sleep sample — as the new timestamp.
Returns `(sleepMs, triggerTime, newLast)`, where `triggerTime` is the clock
value at which the retrigger fires (`curr` plus the sleep). -/
def still_schedule_step (delay last curr : Int) : Int × Int × Int :=
  let delta := curr - last
  let sleepMs := if delta < delay then delay - delta else 0
  (sleepMs, curr + sleepMs, curr)

/-- Result of one `mmalcam_next` call in the model: the return code, the
final fetch-loop state, the `frame_complete` flag at loop exit, and the
still-mode scheduling outputs. -/
structure NextResult where
  ret : Int
  st : FetchState
  frameComplete : Bool
  sleepMs : Int
  triggerAt : Option Int
  newLast : Int
deriving DecidableEq, Repr

/-- `mmalcam_next` (src/mmalcam.c lines 533-605). `hasHandle` models
`cnt != NULL && cnt->mmalcam != NULL` (lines 537-538); when false the call
returns `NETCAM_FATAL_ERROR` at once. Otherwise it runs the fetch loop over
the delivery sequence; `none` means the call blocks in `mmal_queue_wait`
with no further delivery. After the loop, still mode runs the scheduling
step (`last`/`curr` are the recorded timestamp and the clock sample at line
579). In every case where the loop exits — with or without a completed
frame — the function returns 0 (line 604). -/
def mmalcam_next (hasHandle useStill : Bool) (size : Nat)
    (map : List Nat) (pool : List MMBuffer)
    (deliveries : List (MMBuffer × Bool)) (delay last curr : Int) :
    Option NextResult :=
  if !hasHandle then
    some ⟨NETCAM_FATAL_ERROR, ⟨map, pool, []⟩, false, 0, none, last⟩
  else
    match fetchLoop size ⟨map, pool, []⟩ deliveries with
    | .blocked _ => none
    | .completed st fc =>
      if useStill then
        let s := still_schedule_step delay last curr
        some ⟨0, st, fc, s.1, some s.2.1, s.2.2⟩
      else
        some ⟨0, st, fc, 0, none, last⟩

/-- Configuration fields of `struct config` consumed by `mmalcam_start`
(src/mmalcam.c lines 387-478): capture-mode flag, frame limit, minimum
frame time (seconds), and whether a raw capture file is configured. -/
structure MmalConfig where
  use_still : Bool
  frame_limit : Int
  minimum_frame_time : Int
  has_raw_capture_file : Bool
deriving DecidableEq, Repr

/-- Outcome of one iteration of `send_pooled_buffers_to_port`
(src/mmalcam.c lines 342-354): whether `mmal_queue_get` returned a buffer,
and whether `mmal_port_send_buffer` succeeded. -/
structure SeedStep where
  gotBuffer : Bool
  sendOk : Bool
deriving DecidableEq, Repr

/-- Environment of success/failure outcomes for every fallible external call
made during `mmalcam_start` and `create_camera_component`, in source order,
plus the firmware-reported capture-port buffer count. -/
structure StartEnv where
  paramsAllocOk : Bool
  componentCreateOk : Bool
  hasOutputPorts : Bool
  controlEnableOk : Bool
  previewCommitOk : Bool
  extraCommitOk : Bool
  captureCommitOk : Bool
  componentEnableOk : Bool
  nullSinkCreateOk : Bool
  nullSinkEnableOk : Bool
  previewConnectOk : Bool
  reportedBufferNum : Nat
  poolCreateOk : Bool
  queueCreateOk : Bool
  portEnableOk : Bool
  captureTriggerOk : Bool
  seedSteps : List SeedStep
  rawFileOpenOk : Bool
deriving DecidableEq, Repr

/-- The resource fields of `struct mmalcam_context` (declared in motion's
headers, used throughout src/mmalcam.c): each Bool/Option field records
whether the corresponding pointer is non-NULL (for the pool, how many
buffers it was created with), plus the enabled/capturing flags and the
still-mode scheduling fields. -/
structure MmalState where
  cameraParameters : Bool
  cameraComponent : Bool
  previewComponent : Bool
  previewConnection : Bool
  capturePortBufferNum : Nat
  bufferPool : Option Nat
  bufferQueue : Bool
  capturePortEnabled : Bool
  captureStarted : Bool
  lastStillCaptureTime : Int
  stillDelay : Int
  rawFile : Bool
deriving DecidableEq, Repr

/-- The zeroed context right after `memset(cnt->mmalcam, 0, ...)`
(src/mmalcam.c line 392). -/
def initState : MmalState :=
  ⟨false, false, false, false, 0, none, false, false, false, 0, 0, false⟩

/-- The capture-port buffer count after the minimum enforcement of
src/mmalcam.c lines 237-239: raised to `VIDEO_OUTPUT_BUFFERS_NUM` when the
firmware reported fewer, left unchanged otherwise. -/
def adjustBufferNum (reported : Nat) : Nat :=
  if reported < VIDEO_OUTPUT_BUFFERS_NUM then VIDEO_OUTPUT_BUFFERS_NUM
  else reported

/-- `create_camera_component` (src/mmalcam.c lines 131-287). Fallible steps
occur in source order: component creation, output-port check, control-port
enable, the per-mode format commits (both modes commit the preview format
first, then the unused third port, then check the capture-port commit
status), component enable, and — in still mode only — null-sink creation,
null-sink enable and preview connection. On any failure the `error:` label
destroys whatever of the null sink and the camera component was created, so
the context state is returned unchanged; on success the component fields are
bound into the context (lines 272-275) with the adjusted buffer count.
`cccState` is those success-path field assignments. -/
def cccState (cfg : MmalConfig) (env : StartEnv) (st : MmalState) :
    MmalState :=
  { st with
    cameraComponent := true
    previewComponent := cfg.use_still
    previewConnection := cfg.use_still
    capturePortBufferNum := adjustBufferNum env.reportedBufferNum }

/-- The early-return chain of `create_camera_component`; see the comment on
`cccState` above for the source mapping. -/
def create_camera_component (cfg : MmalConfig) (env : StartEnv)
    (st : MmalState) : Int × MmalState :=
  if !env.componentCreateOk then (MMALCAM_ERROR, st)
  else if !env.hasOutputPorts then (MMALCAM_ERROR, st)
  else if !env.controlEnableOk then (MMALCAM_ERROR, st)
  else if !env.previewCommitOk then (MMALCAM_ERROR, st)
  else if !env.extraCommitOk then (MMALCAM_ERROR, st)
  else if !env.captureCommitOk then (MMALCAM_ERROR, st)
  else if !env.componentEnableOk then (MMALCAM_ERROR, st)
  else if cfg.use_still && !env.nullSinkCreateOk then (MMALCAM_ERROR, st)
  else if cfg.use_still && !env.nullSinkEnableOk then (MMALCAM_ERROR, st)
  else if cfg.use_still && !env.previewConnectOk then (MMALCAM_ERROR, st)
  else (MMALCAM_OK, cccState cfg env st)

/-- `create_camera_buffer_structures` (src/mmalcam.c lines 320-336): the pool
is created with exactly the capture port's buffer count; if the queue then
fails to allocate, the function returns the error with the pool still
allocated (no rollback inside this function). `poolState` is the context
after the pool allocation of line 322 — a pool of exactly the capture port's
buffer count. -/
def poolState (st : MmalState) : MmalState :=
  { st with bufferPool := some st.capturePortBufferNum }

/-- The context after pool and queue allocation (src/mmalcam.c line 329). -/
def cbsState (st : MmalState) : MmalState :=
  { poolState st with bufferQueue := true }

def create_camera_buffer_structures (env : StartEnv) (st : MmalState) :
    Int × MmalState :=
  if !env.poolCreateOk then (MMALCAM_ERROR, st)
  else if !env.queueCreateOk then (MMALCAM_ERROR, poolState st)
  else (MMALCAM_OK, cbsState st)

/-- `send_pooled_buffers_to_port` (src/mmalcam.c lines 338-357): iterate over
the buffers free in the pool; if `mmal_queue_get` returns NULL or
`mmal_port_send_buffer` fails, log and return `MMALCAM_ERROR` at once,
otherwise continue; return `MMALCAM_OK` when all were sent. -/
def send_pooled_buffers_to_port : List SeedStep → Int
  | [] => MMALCAM_OK
  | s :: rest =>
    if !s.gotBuffer then MMALCAM_ERROR
    else if !s.sendOk then MMALCAM_ERROR
    else send_pooled_buffers_to_port rest

/-- The still-mode minimum inter-capture delay computed by `mmalcam_start`
(src/mmalcam.c lines 421-426): `minimum_frame_time * 1000` milliseconds when
a positive override is configured, else `1000 / frame_limit` milliseconds.
`Int.tdiv` is C99's truncating integer division (for a zero frame limit C is
undefined; the model yields 0 there). -/
def still_capture_delay (minimum_frame_time frame_limit : Int) : Int :=
  if minimum_frame_time > 0 then minimum_frame_time * 1000
  else Int.tdiv 1000 frame_limit

/-- `mmalcam_start` (src/mmalcam.c lines 387-478). The context is allocated
and zeroed; the parameter set is allocated (fallible); in still mode the
inter-capture delay is computed; then the `retval == 0` chain runs
`create_camera_component`, `create_camera_buffer_structures`, the capture
port enable, the capture trigger (recording the start timestamp `t`, taken
after the first-frame settle sleep), the buffer seeding, and finally the
optional raw-capture-file open whose failure is only logged. On any failure
the function returns the error code immediately with the context state as it
stands: no resource built by an earlier step is released here. `startInit`
is the context right after the parameter-set allocation and the still-mode
delay computation of lines 400-431. -/
def startInit (cfg : MmalConfig) : MmalState :=
  { initState with
    cameraParameters := true
    stillDelay :=
      if cfg.use_still then
        still_capture_delay cfg.minimum_frame_time cfg.frame_limit
      else 0 }

/-- The context after the capture-port enable of src/mmalcam.c line 446. -/
def portEnabledState (st : MmalState) : MmalState :=
  { st with capturePortEnabled := true }

/-- The context after the capture-trigger block of src/mmalcam.c lines
452-463: whether the trigger succeeded, and the recorded start timestamp
`t` (sampled after the first-frame settle sleep). -/
def triggerState (env : StartEnv) (t : Int) (st : MmalState) : MmalState :=
  { st with
    captureStarted := env.captureTriggerOk
    lastStillCaptureTime := t }

/-- The context after a successful raw-capture-file open
(src/mmalcam.c line 471). -/
def rawFileState (st : MmalState) : MmalState :=
  { st with rawFile := true }

def mmalcam_start (cfg : MmalConfig) (env : StartEnv) (t : Int) :
    Int × MmalState :=
  if !env.paramsAllocOk then (MMALCAM_ERROR, initState)
  else
    let r2 := create_camera_component cfg env (startInit cfg)
    if r2.1 ≠ MMALCAM_OK then r2
    else
      let r3 := create_camera_buffer_structures env r2.2
      if r3.1 ≠ MMALCAM_OK then r3
      else if !env.portEnableOk then (MMALCAM_ERROR, r3.2)
      else
        let st5 := triggerState env t (portEnabledState r3.2)
        if !env.captureTriggerOk then (MMALCAM_ERROR, st5)
        else
          let r6 := send_pooled_buffers_to_port env.seedSteps
          if r6 ≠ MMALCAM_OK then (r6, st5)
          else if cfg.has_raw_capture_file && env.rawFileOpenOk then
            (MMALCAM_OK, rawFileState st5)
          else (MMALCAM_OK, st5)

/-- A resource released during `mmalcam_cleanup`, in the order the code
releases them. -/
inductive Res where
  | connection
  | queue
  | pool
  | previewComponent
  | cameraComponent
  | params
  | rawFile
  | context
deriving DecidableEq, Repr

/-- `mmalcam_cleanup` (src/mmalcam.c lines 496-518) applied to the value of
`cnt->mmalcam`: a NULL pointer (`none`) is a guarded no-op. Otherwise
`disable_components_and_ports` (lines 289-306) runs first, and its very
first statement dereferences `mmalcam->camera_component->output[...]`
without a NULL check — when the camera component is NULL (as after a failed
or partial `mmalcam_start`) this is a NULL-pointer dereference, modelled as
the `none` result. When the component is non-NULL the teardown completes,
releasing each held resource exactly once (each destroy is guarded by its
pointer, which the code then nulls) and freeing the context last; the
returned list is the sequence of releases performed. -/
def mmalcam_cleanup : Option MmalState → Option (List Res)
  | none => some []
  | some m =>
    if !m.cameraComponent then none
    else
      some
        ((if m.previewConnection then [Res.connection] else []) ++
         (if m.bufferQueue then [Res.queue] else []) ++
         (if m.bufferPool.isSome then [Res.pool] else []) ++
         (if m.previewComponent then [Res.previewComponent] else []) ++
         [Res.cameraComponent] ++
         (if m.cameraParameters then [Res.params] else []) ++
         (if m.rawFile then [Res.rawFile] else []) ++
         [Res.context])

/-! ### The buffer-exchange ownership protocol

`camera_buffer_video_callback`, the fetch loop of `mmalcam_next` and
`send_pooled_buffers_to_port` together move pool buffers between four
owners: the hardware capture port, the pool's free queue, the delivery
queue, and the consumer (`mmalcam_next` between `mmal_queue_wait` and
`mmal_buffer_header_release`). A failed `mmal_port_send_buffer` (line 350
during seeding, lines 567-571 during resubmission) is only logged: the
buffer already taken from the pool queue is then held by none of the four
owners and leaves circulation. Buffers are identified by `Nat`. -/

/-- Ownership state of the buffer-exchange protocol: which buffers each of
the four owners currently holds (the pool, delivery queue and consumer lists
are FIFO where the code imposes an order). -/
structure ExchState where
  port : List Nat
  pool : List Nat
  queue : List Nat
  consumer : List Nat
deriving DecidableEq, Repr

/-- How many of the four owners hold buffer `b` (counting multiplicity). -/
def ownerCount (s : ExchState) (b : Nat) : Nat :=
  s.port.count b + s.pool.count b + s.queue.count b + s.consumer.count b

/-- One hand-off of the buffer-exchange protocol of src/mmalcam.c:
* `seed`: `mmal_queue_get(pool->queue)` removes the pool's head buffer and a
  successful `mmal_port_send_buffer` gives it to the port (lines 343-350,
  seeding);
* `seedFail`: the same get, but `mmal_port_send_buffer` fails (line 350):
  the code only logs — the buffer has left the pool queue and the port never
  took it, so it is dropped from circulation, held by none of the four
  owners;
* `deliver`: the hardware completes a port-held buffer and
  `camera_buffer_video_callback` appends it to the delivery queue (line 91);
* `fetch`: `mmal_queue_wait` hands the queue's head buffer to the consumer
  (line 546);
* `release`: `mmal_buffer_header_release` returns a consumer-held buffer to
  its pool (line 560);
* `resubmit`: `mmal_queue_get(pool->queue)` + a successful
  `mmal_port_send_buffer` moves the pool's head buffer back to the port
  (lines 564-567);
* `resubmitFail`: the resubmission send fails (lines 567-571): the code only
  logs, and the buffer taken from the pool queue is likewise dropped from
  circulation. -/
inductive ExchStep : ExchState → ExchState → Prop
  | seed (s : ExchState) (b : Nat) (rest : List Nat)
      (h : s.pool = b :: rest) :
      ExchStep s ⟨s.port ++ [b], rest, s.queue, s.consumer⟩
  | seedFail (s : ExchState) (b : Nat) (rest : List Nat)
      (h : s.pool = b :: rest) :
      ExchStep s ⟨s.port, rest, s.queue, s.consumer⟩
  | deliver (s : ExchState) (b : Nat) (h : b ∈ s.port) :
      ExchStep s ⟨s.port.erase b, s.pool, s.queue ++ [b], s.consumer⟩
  | fetch (s : ExchState) (b : Nat) (rest : List Nat)
      (h : s.queue = b :: rest) :
      ExchStep s ⟨s.port, s.pool, rest, s.consumer ++ [b]⟩
  | release (s : ExchState) (b : Nat) (h : b ∈ s.consumer) :
      ExchStep s ⟨s.port, s.pool ++ [b], s.queue, s.consumer.erase b⟩
  | resubmit (s : ExchState) (b : Nat) (rest : List Nat)
      (h : s.pool = b :: rest) :
      ExchStep s ⟨s.port ++ [b], rest, s.queue, s.consumer⟩
  | resubmitFail (s : ExchState) (b : Nat) (rest : List Nat)
      (h : s.pool = b :: rest) :
      ExchStep s ⟨s.port, rest, s.queue, s.consumer⟩

/-- Reachability under the buffer-exchange protocol. -/
inductive ExchReach (init : ExchState) : ExchState → Prop
  | refl : ExchReach init init
  | step {s s' : ExchState} (hr : ExchReach init s) (hs : ExchStep s s') :
      ExchReach init s'

/-! ### Concrete example configurations used by the concrete theorems -/

/-- A video-mode configuration: 15 fps frame limit, no minimum-frame-time
override, no raw capture file. -/
def cfgVideo : MmalConfig := ⟨false, 15, 0, false⟩

/-- An environment in which every fallible call of `mmalcam_start` succeeds;
the firmware reports 3 capture-port buffers and all 3 seed sends succeed. -/
def envAllOk : StartEnv :=
  ⟨true, true, true, true, true, true, true, true, true, true, true, 3,
   true, true, true, true, [⟨true, true⟩, ⟨true, true⟩, ⟨true, true⟩], true⟩

/-! ### Helper lemmas -/

/-- `create_camera_component` either fails leaving the context unchanged
(its `error:` label destroys everything it created) or succeeds binding the
component fields. -/
lemma ccc_shape (cfg : MmalConfig) (env : StartEnv) (st : MmalState) :
    create_camera_component cfg env st = (MMALCAM_ERROR, st) ∨
    create_camera_component cfg env st = (MMALCAM_OK, cccState cfg env st) := by
  unfold create_camera_component
  repeat' split
  all_goals simp

/-- `create_camera_buffer_structures` fails before the pool, fails after the
pool (leaving it allocated), or succeeds. -/
lemma cbs_shape (env : StartEnv) (st : MmalState) :
    create_camera_buffer_structures env st = (MMALCAM_ERROR, st) ∨
    create_camera_buffer_structures env st = (MMALCAM_ERROR, poolState st) ∨
    create_camera_buffer_structures env st = (MMALCAM_OK, cbsState st) := by
  unfold create_camera_buffer_structures
  repeat' split
  all_goals simp

/-- Seeding returns either success or the error code. -/
lemma send_shape (l : List SeedStep) :
    send_pooled_buffers_to_port l = MMALCAM_OK ∨
    send_pooled_buffers_to_port l = MMALCAM_ERROR := by
  induction l with
  | nil => exact Or.inl rfl
  | cons s rest ih =>
    unfold send_pooled_buffers_to_port
    split
    · exact Or.inr rfl
    · split
      · exact Or.inr rfl
      · exact ih

/-- The context state `mmalcam_start` leaves behind when every step
succeeds. -/
def startSuccessState (cfg : MmalConfig) (env : StartEnv) (t : Int) :
    MmalState :=
  { cameraParameters := true
    cameraComponent := true
    previewComponent := cfg.use_still
    previewConnection := cfg.use_still
    capturePortBufferNum := adjustBufferNum env.reportedBufferNum
    bufferPool := some (adjustBufferNum env.reportedBufferNum)
    bufferQueue := true
    capturePortEnabled := true
    captureStarted := true
    lastStillCaptureTime := t
    stillDelay :=
      if cfg.use_still then
        still_capture_delay cfg.minimum_frame_time cfg.frame_limit
      else 0
    rawFile := cfg.has_raw_capture_file && env.rawFileOpenOk }

/-- The fully-successful context equals `startSuccessState`. -/
lemma success_state_eq (cfg : MmalConfig) (env : StartEnv) (t : Int)
    (htr : env.captureTriggerOk = true) :
    triggerState env t (portEnabledState (cbsState (cccState cfg env (startInit cfg)))) =
      { startSuccessState cfg env t with
        rawFile := false } := by
  simp [triggerState, portEnabledState, cbsState, poolState, cccState,
    startInit, initState, startSuccessState, htr]

/-- `mmalcam_start` either returns the error code or returns success with
the fully-constructed context. -/
lemma start_shape (cfg : MmalConfig) (env : StartEnv) (t : Int) :
    (mmalcam_start cfg env t).1 = MMALCAM_ERROR ∨
    mmalcam_start cfg env t = (MMALCAM_OK, startSuccessState cfg env t) := by
  unfold mmalcam_start
  split
  · exact Or.inl rfl
  · rcases ccc_shape cfg env (startInit cfg) with hc | hc <;> rw [hc]
    · simp [MMALCAM_ERROR, MMALCAM_OK]
    · simp only [MMALCAM_OK, ne_eq, not_true_eq_false, reduceIte]
      rcases cbs_shape env (cccState cfg env (startInit cfg)) with hb | hb | hb <;>
        rw [hb]
      · simp [MMALCAM_ERROR, MMALCAM_OK]
      · simp [MMALCAM_ERROR, MMALCAM_OK]
      · simp only [MMALCAM_OK, ne_eq, not_true_eq_false, reduceIte]
        split
        · exact Or.inl rfl
        · rename_i hpe
          split
          · exact Or.inl rfl
          · rename_i htr
            rcases send_shape env.seedSteps with hs | hs <;> rw [hs]
            · simp only [MMALCAM_OK, ne_eq, not_true_eq_false, reduceIte]
              have htr' : env.captureTriggerOk = true := by
                revert htr; cases env.captureTriggerOk <;> simp
              split
              · rename_i hraw
                right
                rw [success_state_eq cfg env t htr']
                simp [rawFileState, startSuccessState, hraw]
              · rename_i hraw
                right
                rw [success_state_eq cfg env t htr']
                have : (cfg.has_raw_capture_file && env.rawFileOpenOk) = false := by
                  revert hraw
                  cases cfg.has_raw_capture_file <;> cases env.rawFileOpenOk <;> simp
                simp [startSuccessState, this]
            · simp [MMALCAM_ERROR, MMALCAM_OK]

/-- Every hand-off of the exchange protocol either conserves each buffer's
owner count (a successful move from exactly one owner to exactly one other),
or — on a failed `mmal_port_send_buffer` — drops exactly the pool-head
buffer's count by one and touches no other buffer. -/
lemma exchStep_conserve_or_drop {s s' : ExchState} (h : ExchStep s s') :
    (∀ x : Nat, ownerCount s' x = ownerCount s x) ∨
    (∃ b : Nat, ownerCount s b = ownerCount s' b + 1 ∧
      ∀ x : Nat, x ≠ b → ownerCount s' x = ownerCount s x) := by
  cases h with
  | seed b rest hp =>
    left
    intro x
    simp only [ownerCount, hp, List.count_append, List.count_cons,
      List.count_nil]
    omega
  | seedFail b rest hp =>
    right
    refine ⟨b, ?_, ?_⟩
    · simp only [ownerCount, hp, List.count_cons, beq_self_eq_true, if_true]
      omega
    · intro x hx
      have hbx : (b == x) = false := by simpa using hx.symm
      simp only [ownerCount, hp, List.count_cons, hbx, Bool.false_eq_true,
        if_false]
      omega
  | deliver b hb =>
    left
    intro x
    rcases eq_or_ne x b with hx | hx
    · subst hx
      have hpos : 0 < s.port.count x := List.count_pos_iff.mpr hb
      simp only [ownerCount, List.count_append, List.count_erase_self,
        List.count_singleton, beq_self_eq_true, if_true]
      omega
    · have hbx : (b == x) = false := by simpa using hx.symm
      simp only [ownerCount, List.count_append,
        List.count_erase_of_ne hx, List.count_singleton, hbx,
        Bool.false_eq_true, if_false]
      omega
  | fetch b rest hq =>
    left
    intro x
    simp only [ownerCount, hq, List.count_append, List.count_cons,
      List.count_nil]
    omega
  | release b hb =>
    left
    intro x
    rcases eq_or_ne x b with hx | hx
    · subst hx
      have hpos : 0 < s.consumer.count x := List.count_pos_iff.mpr hb
      simp only [ownerCount, List.count_append, List.count_erase_self,
        List.count_singleton, beq_self_eq_true, if_true]
      omega
    · have hbx : (b == x) = false := by simpa using hx.symm
      simp only [ownerCount, List.count_append,
        List.count_erase_of_ne hx, List.count_singleton, hbx,
        Bool.false_eq_true, if_false]
      omega
  | resubmit b rest hp =>
    left
    intro x
    simp only [ownerCount, hp, List.count_append, List.count_cons,
      List.count_nil]
    omega
  | resubmitFail b rest hp =>
    right
    refine ⟨b, ?_, ?_⟩
    · simp only [ownerCount, hp, List.count_cons, beq_self_eq_true, if_true]
      omega
    · intro x hx
      have hbx : (b == x) = false := by simpa using hx.symm
      simp only [ownerCount, hp, List.count_cons, hbx, Bool.false_eq_true,
        if_false]
      omega

/-- No hand-off ever increases a buffer's owner count: a buffer is never
duplicated into a second owner. -/
lemma exchStep_ownerCount_le {s s' : ExchState} (h : ExchStep s s')
    (x : Nat) : ownerCount s' x ≤ ownerCount s x := by
  rcases exchStep_conserve_or_drop h with hc | ⟨b, hb, ho⟩
  · exact (hc x).le
  · rcases eq_or_ne x b with rfl | hx
    · omega
    · exact (ho x hx).le

/-- Owner counts never increase along any reachable execution of the
protocol. -/
lemma exchReach_ownerCount_le {init s : ExchState} (h : ExchReach init s)
    (x : Nat) : ownerCount s x ≤ ownerCount init x := by
  induction h with
  | refl => exact le_refl _
  | step hr hs ih => exact le_trans (exchStep_ownerCount_le hs x) ih

/-- A still-mode configuration: 15 fps frame limit, no minimum-frame-time
override, no raw capture file. -/
def cfgStill : MmalConfig := ⟨true, 15, 0, false⟩

lemma adjustBufferNum_ge (r : Nat) :
    VIDEO_OUTPUT_BUFFERS_NUM ≤ adjustBufferNum r := by
  unfold adjustBufferNum
  split <;> omega

lemma adjustBufferNum_of_lt (r : Nat) (h : r < VIDEO_OUTPUT_BUFFERS_NUM) :
    adjustBufferNum r = VIDEO_OUTPUT_BUFFERS_NUM := by
  unfold adjustBufferNum
  split <;> omega

lemma adjustBufferNum_of_ge (r : Nat) (h : VIDEO_OUTPUT_BUFFERS_NUM ≤ r) :
    adjustBufferNum r = r := by
  unfold adjustBufferNum
  split <;> omega

/-- Every path of `mmalcam_start` past the parameter allocation leaves the
still-mode delay computed at lines 421-426 untouched. -/
lemma start_stillDelay (cfg : MmalConfig) (env : StartEnv) (t : Int)
    (hp : env.paramsAllocOk = true) :
    (mmalcam_start cfg env t).2.stillDelay = (startInit cfg).stillDelay := by
  unfold mmalcam_start
  rw [hp]
  simp only [Bool.not_true, Bool.false_eq_true, if_false]
  rcases ccc_shape cfg env (startInit cfg) with hc | hc <;> rw [hc]
  · simp [MMALCAM_ERROR, MMALCAM_OK]
  · simp only [MMALCAM_OK, ne_eq, not_true_eq_false, reduceIte]
    rcases cbs_shape env (cccState cfg env (startInit cfg)) with hb | hb | hb <;>
      rw [hb]
    · simp [MMALCAM_ERROR, MMALCAM_OK, cccState]
    · simp [MMALCAM_ERROR, MMALCAM_OK, poolState, cccState]
    · simp only [MMALCAM_OK, ne_eq, not_true_eq_false, reduceIte]
      split
      · simp [cbsState, poolState, cccState]
      · split
        · simp [triggerState, portEnabledState, cbsState, poolState, cccState]
        · rcases send_shape env.seedSteps with hs | hs <;> rw [hs]
          · simp only [MMALCAM_OK, ne_eq, not_true_eq_false, reduceIte]
            split
            · simp [rawFileState, triggerState, portEnabledState, cbsState,
                poolState, cccState]
            · simp [triggerState, portEnabledState, cbsState, poolState,
                cccState]
          · simp [MMALCAM_ERROR, MMALCAM_OK, triggerState, portEnabledState,
              cbsState, poolState, cccState]

/-! ### Claim theorems -/

/-- Claim C1, counterexample: with a valid started handle, when the capture
port is disabled while `mmalcam_next` waits (a zero-length flush buffer is
delivered with `is_enabled` false), the call returns 0 — success without a
completed frame — and not the fatal-hardware code `NETCAM_FATAL_ERROR`,
contradicting the claim that it returns the fatal error. -/
theorem next_disabled_returns_zero_cex :
    mmalcam_next true false 6 [9, 9, 9, 9, 9, 9] [] [(⟨0, 0, 0, []⟩, false)]
        0 0 0 =
      some ⟨0, ⟨[9, 9, 9, 9, 9, 9], [⟨0, 0, 0, []⟩], []⟩, false, 0, none, 0⟩ ∧
    (0 : Int) ≠ NETCAM_FATAL_ERROR := by
  decide

/-- Claim C1, amended: if the capture port becomes disabled while `next`
waits, the loop exits after the next dequeued (non-frame) buffer and `next`
returns 0 — success with no completed frame — rather than blocking forever;
`NETCAM_FATAL_ERROR` is returned only when the context or its mmalcam
pointer is NULL. -/
theorem next_disabled_amended (size : Nat) (map : List Nat)
    (pool : List MMBuffer) (b : MMBuffer) (rest : List (MMBuffer × Bool))
    (delay last curr : Int) (hb : validFrame size b = false) :
    mmalcam_next true false size map pool ((b, false) :: rest)
        delay last curr =
      some ⟨0, ⟨map, pool ++ [b], []⟩, false, 0, none, last⟩ ∧
    (∀ (useStill : Bool) (size' : Nat) (map' : List Nat)
        (pool' : List MMBuffer) (ds : List (MMBuffer × Bool))
        (delay' last' curr' : Int),
      mmalcam_next false useStill size' map' pool' ds delay' last' curr' =
        some ⟨NETCAM_FATAL_ERROR, ⟨map', pool', []⟩, false, 0, none, last'⟩) := by
  constructor
  · simp [mmalcam_next, fetchLoop, fetchIter, hb]
  · intro useStill size' map' pool' ds delay' last' curr'
    simp [mmalcam_next]

/-- Witness for `next_disabled_amended` at a concrete invalid flush buffer. -/
theorem next_disabled_amended_witness :
    validFrame 6 ⟨0, 0, 0, []⟩ = false ∧
    mmalcam_next true false 6 [7, 7, 7, 7, 7, 7] [] [(⟨0, 0, 0, []⟩, false)]
        0 0 0 =
      some ⟨0, ⟨[7, 7, 7, 7, 7, 7], [⟨0, 0, 0, []⟩], []⟩, false, 0, none, 0⟩ :=
  ⟨by decide,
   (next_disabled_amended 6 [7, 7, 7, 7, 7, 7] [] ⟨0, 0, 0, []⟩ [] 0 0 0
     (by decide)).1⟩

/-- Claim C2 (code bug): `mmalcam_cleanup` is documented to be callable
after a failed first connection, but after `mmalcam_start` fails in
`create_camera_component` (leaving `camera_component == NULL` in the zeroed
context), `disable_components_and_ports` dereferences
`mmalcam->camera_component->output[...]` with no NULL check and crashes —
modelled as the `none` outcome. -/
theorem cleanup_after_failed_start_crashes :
    (mmalcam_start cfgVideo { envAllOk with componentCreateOk := false }
        0).1 = MMALCAM_ERROR ∧
    mmalcam_cleanup
        (some (mmalcam_start cfgVideo
          { envAllOk with componentCreateOk := false } 0).2) = none := by
  decide

/-- Claim C4, counterexample: the claimed exactly-one-owner invariant fails
on the `mmal_port_send_buffer` failure path. Concretely: buffer 1, alone in
the pool, is taken from the pool queue by `mmal_queue_get` and the send to
the port fails (src/mmalcam.c line 350 during seeding, lines 567-571 during
resubmission) — the reachable successor state holds buffer 1 under none of
{port, pool, queue, consumer}: its owner count is 0, not 1. -/
theorem buffer_dropped_zero_owner_cex :
    ExchReach ⟨[], [1], [], []⟩ ⟨[], [], [], []⟩ ∧
    ownerCount ⟨[], [1], [], []⟩ 1 = 1 ∧
    ownerCount ⟨[], [], [], []⟩ 1 = 0 :=
  ⟨ExchReach.step ExchReach.refl (ExchStep.seedFail _ 1 [] rfl),
   by decide, by decide⟩

/-- Claim C4, amended: across every reachable state of the buffer-exchange
protocol, a buffer held by at most one of {port, pool, queue, consumer}
initially is held by at most one owner at any instant (no buffer is ever
referenced by two owners simultaneously); and every hand-off either moves a
buffer from exactly one owner to exactly one other, conserving all owner
counts, or — when `mmal_port_send_buffer` fails during seeding or
resubmission — drops exactly the buffer taken from the pool queue out of
circulation (its owner count decreases by one to zero owners; the code only
logs), leaving every other buffer's count unchanged. -/
theorem buffer_ownership_amended :
    (∀ init s : ExchState, ExchReach init s →
      ∀ b : Nat, ownerCount init b ≤ 1 → ownerCount s b ≤ 1) ∧
    (∀ s s' : ExchState, ExchStep s s' →
      (∀ b : Nat, ownerCount s' b = ownerCount s b) ∨
      (∃ b : Nat, ownerCount s b = ownerCount s' b + 1 ∧
        ∀ x : Nat, x ≠ b → ownerCount s' x = ownerCount s x)) := by
  constructor
  · intro init s h b h1
    exact le_trans (exchReach_ownerCount_le h b) h1
  · intro s s' h
    exact exchStep_conserve_or_drop h

/-- Witness for `buffer_ownership_amended`: two buffers seeded into the
pool; after buffer 1 is seeded to the port and delivered to the queue it
still has at most one owner, and that successful seed hand-off conserved
every owner count. -/
theorem buffer_ownership_amended_witness :
    ownerCount ⟨[], [1, 2], [], []⟩ 1 ≤ 1 ∧
    ownerCount ⟨[], [2], [1], []⟩ 1 ≤ 1 ∧
    ((∀ b : Nat,
        ownerCount ⟨[] ++ [1], [2], [], []⟩ b =
          ownerCount ⟨[], [1, 2], [], []⟩ b) ∨
      (∃ b : Nat,
        ownerCount ⟨[], [1, 2], [], []⟩ b =
          ownerCount ⟨[] ++ [1], [2], [], []⟩ b + 1 ∧
        ∀ x : Nat, x ≠ b →
          ownerCount ⟨[] ++ [1], [2], [], []⟩ x =
            ownerCount ⟨[], [1, 2], [], []⟩ x)) :=
  ⟨by decide,
   buffer_ownership_amended.1 ⟨[], [1, 2], [], []⟩ ⟨[], [2], [1], []⟩
     (ExchReach.step
       (ExchReach.step ExchReach.refl (ExchStep.seed _ 1 [2] rfl))
       (ExchStep.deliver _ 1 (by decide)))
     1 (by decide),
   buffer_ownership_amended.2 ⟨[], [1, 2], [], []⟩ ⟨[] ++ [1], [2], [], []⟩
     (ExchStep.seed _ 1 [2] rfl)⟩

/-- Claim C5, counterexample: with `delay = 100`, a last-recorded timestamp
0 and clock samples 10 and 110, the first scheduling step sleeps to trigger
at time 100 but records 10, so the second step sees a delta of 100, does not
sleep, and triggers at 110 — two successful capture triggers only 10 ms
apart, violating the claimed minimum separation `D`. -/
theorem still_rate_limit_violated_cex :
    (still_schedule_step 100 0 10).2.1 = 100 ∧
    (still_schedule_step 100 (still_schedule_step 100 0 10).2.2 110).2.1 =
      110 ∧
    (still_schedule_step 100 (still_schedule_step 100 0 10).2.2 110).2.1 -
        (still_schedule_step 100 0 10).2.1 < 100 ∧
    (still_schedule_step 100 0 10).2.1 ≤ 110 := by
  decide

/-- Claim C5, amended: when less than `delay` has elapsed since the
*recorded* timestamp, the scheduler sleeps exactly the remaining time (and
otherwise does not sleep), and the retrigger fires no earlier than
`last + delay`; but the timestamp it records for the next cycle is the
pre-sleep clock sample `curr`, not the actual trigger time, which is why
two triggers can be separated by less than `delay`
(`still_rate_limit_violated_cex`). -/
theorem still_schedule_amended (delay last curr : Int) :
    last + delay ≤ (still_schedule_step delay last curr).2.1 ∧
    (still_schedule_step delay last curr).2.2 = curr ∧
    (curr - last < delay →
      (still_schedule_step delay last curr).1 = delay - (curr - last)) ∧
    (delay ≤ curr - last → (still_schedule_step delay last curr).1 = 0) := by
  unfold still_schedule_step
  refine ⟨?_, rfl, fun h => ?_, fun h => ?_⟩ <;> simp only [] <;> split <;>
    omega

/-- Witness for `still_schedule_amended`: with `delay = 100`, `last = 0`
and a clock sample at 10, the step sleeps exactly the remaining 90 ms and
triggers at 100. -/
theorem still_schedule_amended_witness :
    (0 : Int) + 100 ≤ (still_schedule_step 100 0 10).2.1 ∧
    (10 : Int) - 0 < 100 ∧
    (still_schedule_step 100 0 10).1 = 100 - (10 - 0) :=
  ⟨(still_schedule_amended 100 0 10).1, by decide,
   (still_schedule_amended 100 0 10).2.2.1 (by decide)⟩

/-- Claim C10: calling `mmalcam_cleanup` on a context whose `mmalcam`
pointer is NULL is a safe no-op — it performs no resource release and does
not crash. -/
theorem cleanup_null_noop : mmalcam_cleanup none = some [] := rfl

/-- Claim C3, counterexample: when the queue allocation fails inside
`create_camera_buffer_structures`, `mmalcam_start` returns the error with
the parameter set, the camera component and the freshly created pool all
still allocated — nothing was released before the error return,
contradicting the claimed full reverse-order rollback. -/
theorem start_leaves_resources_on_error_cex :
    (mmalcam_start cfgVideo { envAllOk with queueCreateOk := false } 0).1 =
      MMALCAM_ERROR ∧
    (mmalcam_start cfgVideo { envAllOk with queueCreateOk := false }
        0).2.cameraParameters = true ∧
    (mmalcam_start cfgVideo { envAllOk with queueCreateOk := false }
        0).2.cameraComponent = true ∧
    (mmalcam_start cfgVideo { envAllOk with queueCreateOk := false }
        0).2.bufferPool = some 3 := by
  decide

/-- Claim C3, amended: only `create_camera_component` rolls back its own
partial construction — any internal failure destroys the null sink and the
component it created and leaves the context unchanged. `mmalcam_start`
itself performs no rollback at any of its later failure points: whether the
pool creation, the queue creation, the capture-port enable, the capture
trigger or the buffer seeding fails, it returns the error with every
previously constructed resource still held in the context, to be released
by a subsequent `mmalcam_cleanup`. -/
theorem start_rollback_amended :
    (∀ (cfg : MmalConfig) (env : StartEnv) (st : MmalState),
      (create_camera_component cfg env st).1 ≠ MMALCAM_OK →
      (create_camera_component cfg env st).2 = st) ∧
    (∀ (cfg : MmalConfig) (env : StartEnv) (t : Int),
      env.paramsAllocOk = true →
      (create_camera_component cfg env (startInit cfg)).1 = MMALCAM_OK →
      (env.poolCreateOk = false →
        mmalcam_start cfg env t =
          (MMALCAM_ERROR, cccState cfg env (startInit cfg))) ∧
      (env.poolCreateOk = true → env.queueCreateOk = false →
        mmalcam_start cfg env t =
          (MMALCAM_ERROR, poolState (cccState cfg env (startInit cfg)))) ∧
      (env.poolCreateOk = true → env.queueCreateOk = true →
        env.portEnableOk = false →
        mmalcam_start cfg env t =
          (MMALCAM_ERROR, cbsState (cccState cfg env (startInit cfg)))) ∧
      (env.poolCreateOk = true → env.queueCreateOk = true →
        env.portEnableOk = true → env.captureTriggerOk = false →
        mmalcam_start cfg env t =
          (MMALCAM_ERROR,
            triggerState env t (portEnabledState
              (cbsState (cccState cfg env (startInit cfg)))))) ∧
      (env.poolCreateOk = true → env.queueCreateOk = true →
        env.portEnableOk = true → env.captureTriggerOk = true →
        send_pooled_buffers_to_port env.seedSteps = MMALCAM_ERROR →
        mmalcam_start cfg env t =
          (MMALCAM_ERROR,
            triggerState env t (portEnabledState
              (cbsState (cccState cfg env (startInit cfg))))))) := by
  constructor
  · intro cfg env st h
    rcases ccc_shape cfg env st with hc | hc
    · rw [hc]
    · rw [hc] at h
      simp [MMALCAM_OK] at h
  · intro cfg env t hp hcOk
    have hc : create_camera_component cfg env (startInit cfg) =
        (MMALCAM_OK, cccState cfg env (startInit cfg)) := by
      rcases ccc_shape cfg env (startInit cfg) with h | h
      · rw [h] at hcOk
        simp [MMALCAM_ERROR, MMALCAM_OK] at hcOk
      · exact h
    refine ⟨fun hpool => ?_, fun hpool hq => ?_, fun hpool hq hpe => ?_,
      fun hpool hq hpe htr => ?_, fun hpool hq hpe htr hseed => ?_⟩
    · have hcbs : create_camera_buffer_structures env
          (cccState cfg env (startInit cfg)) =
          (MMALCAM_ERROR, cccState cfg env (startInit cfg)) := by
        unfold create_camera_buffer_structures
        simp [hpool]
      unfold mmalcam_start
      simp [hp, hc, hcbs, MMALCAM_OK, MMALCAM_ERROR]
    · have hcbs : create_camera_buffer_structures env
          (cccState cfg env (startInit cfg)) =
          (MMALCAM_ERROR, poolState (cccState cfg env (startInit cfg))) := by
        unfold create_camera_buffer_structures
        simp [hpool, hq]
      unfold mmalcam_start
      simp [hp, hc, hcbs, MMALCAM_OK, MMALCAM_ERROR]
    · have hcbs : create_camera_buffer_structures env
          (cccState cfg env (startInit cfg)) =
          (MMALCAM_OK, cbsState (cccState cfg env (startInit cfg))) := by
        unfold create_camera_buffer_structures
        simp [hpool, hq]
      unfold mmalcam_start
      simp [hp, hc, hcbs, hpe, MMALCAM_OK, MMALCAM_ERROR]
    · have hcbs : create_camera_buffer_structures env
          (cccState cfg env (startInit cfg)) =
          (MMALCAM_OK, cbsState (cccState cfg env (startInit cfg))) := by
        unfold create_camera_buffer_structures
        simp [hpool, hq]
      unfold mmalcam_start
      simp [hp, hc, hcbs, hpe, htr, MMALCAM_OK, MMALCAM_ERROR]
    · have hcbs : create_camera_buffer_structures env
          (cccState cfg env (startInit cfg)) =
          (MMALCAM_OK, cbsState (cccState cfg env (startInit cfg))) := by
        unfold create_camera_buffer_structures
        simp [hpool, hq]
      unfold mmalcam_start
      simp [hp, hc, hcbs, hpe, htr, hseed, MMALCAM_OK, MMALCAM_ERROR]

/-- Witness for `start_rollback_amended`: a failed component creation leaves
the context unchanged, and each later failure point — pool creation, queue
creation, port enable, capture trigger — makes `mmalcam_start` return the
error with everything built before it still allocated. -/
theorem start_rollback_amended_witness :
    ((create_camera_component cfgVideo
        { envAllOk with componentCreateOk := false } initState).1 ≠
      MMALCAM_OK ∧
     (create_camera_component cfgVideo
        { envAllOk with componentCreateOk := false } initState).2 =
      initState) ∧
    mmalcam_start cfgVideo { envAllOk with poolCreateOk := false } 0 =
      (MMALCAM_ERROR,
        cccState cfgVideo { envAllOk with poolCreateOk := false }
          (startInit cfgVideo)) ∧
    mmalcam_start cfgVideo { envAllOk with queueCreateOk := false } 0 =
      (MMALCAM_ERROR,
        poolState (cccState cfgVideo { envAllOk with queueCreateOk := false }
          (startInit cfgVideo))) ∧
    mmalcam_start cfgVideo { envAllOk with portEnableOk := false } 0 =
      (MMALCAM_ERROR,
        cbsState (cccState cfgVideo { envAllOk with portEnableOk := false }
          (startInit cfgVideo))) ∧
    mmalcam_start cfgVideo { envAllOk with captureTriggerOk := false } 0 =
      (MMALCAM_ERROR,
        triggerState { envAllOk with captureTriggerOk := false } 0
          (portEnabledState (cbsState (cccState cfgVideo
            { envAllOk with captureTriggerOk := false }
            (startInit cfgVideo))))) :=
  ⟨⟨by decide,
    start_rollback_amended.1 cfgVideo
      { envAllOk with componentCreateOk := false } initState (by decide)⟩,
   (start_rollback_amended.2 cfgVideo { envAllOk with poolCreateOk := false }
     0 rfl (by decide)).1 rfl,
   (start_rollback_amended.2 cfgVideo { envAllOk with queueCreateOk := false }
     0 rfl (by decide)).2.1 rfl rfl,
   (start_rollback_amended.2 cfgVideo { envAllOk with portEnableOk := false }
     0 rfl (by decide)).2.2.1 rfl rfl rfl,
   (start_rollback_amended.2 cfgVideo
     { envAllOk with captureTriggerOk := false } 0 rfl
     (by decide)).2.2.2.1 rfl rfl rfl rfl⟩

/-- Claim C7, counterexample: a partial seeding failure (second send to the
port fails) makes `send_pooled_buffers_to_port` return `MMALCAM_ERROR`,
which `mmalcam_start` propagates — start returns the error, not success,
contradicting the claim that partial seeding is non-fatal. -/
theorem seed_failure_fatal_cex :
    send_pooled_buffers_to_port [⟨true, true⟩, ⟨true, false⟩] =
      MMALCAM_ERROR ∧
    (mmalcam_start cfgVideo
        { envAllOk with seedSteps := [⟨true, true⟩, ⟨true, false⟩] } 0).1 =
      MMALCAM_ERROR ∧
    MMALCAM_ERROR ≠ MMALCAM_OK := by
  decide

/-- Claim C7, amended: a seeding failure (buffer unavailable from the pool
or send to the port failing) is logged and `send_pooled_buffers_to_port`
returns the error, which `mmalcam_start` propagates: start returns
`MMALCAM_ERROR`, with the component, pool, queue and enabled capture port
left allocated in the context and the capture already triggered. -/
theorem seed_failure_amended (cfg : MmalConfig) (env : StartEnv) (t : Int)
    (hp : env.paramsAllocOk = true) (h2 : env.componentCreateOk = true)
    (h3 : env.hasOutputPorts = true) (h4 : env.controlEnableOk = true)
    (h5 : env.previewCommitOk = true) (h6 : env.extraCommitOk = true)
    (h7 : env.captureCommitOk = true) (h8 : env.componentEnableOk = true)
    (h9 : cfg.use_still = false) (h10 : env.poolCreateOk = true)
    (h11 : env.queueCreateOk = true) (h12 : env.portEnableOk = true)
    (h13 : env.captureTriggerOk = true)
    (hseed : send_pooled_buffers_to_port env.seedSteps = MMALCAM_ERROR) :
    mmalcam_start cfg env t =
      (MMALCAM_ERROR,
        triggerState env t
          (portEnabledState (cbsState (cccState cfg env (startInit cfg))))) := by
  have hc : create_camera_component cfg env (startInit cfg) =
      (MMALCAM_OK, cccState cfg env (startInit cfg)) := by
    unfold create_camera_component
    simp [h2, h3, h4, h5, h6, h7, h8, h9]
  have hcbs : create_camera_buffer_structures env
      (cccState cfg env (startInit cfg)) =
      (MMALCAM_OK, cbsState (cccState cfg env (startInit cfg))) := by
    unfold create_camera_buffer_structures
    simp [h10, h11]
  unfold mmalcam_start
  simp [hp, hc, hcbs, hseed, MMALCAM_OK, MMALCAM_ERROR, h12, h13]

/-- Witness for `seed_failure_amended` at a concrete environment whose
second seed send fails. -/
theorem seed_failure_amended_witness :
    send_pooled_buffers_to_port [⟨true, false⟩] = MMALCAM_ERROR ∧
    mmalcam_start cfgVideo { envAllOk with seedSteps := [⟨true, false⟩] } 0 =
      (MMALCAM_ERROR,
        triggerState { envAllOk with seedSteps := [⟨true, false⟩] } 0
          (portEnabledState (cbsState (cccState cfgVideo
            { envAllOk with seedSteps := [⟨true, false⟩] }
            (startInit cfgVideo))))) :=
  ⟨by decide,
   seed_failure_amended cfgVideo { envAllOk with seedSteps := [⟨true, false⟩] }
     0 rfl rfl rfl rfl rfl rfl rfl rfl rfl rfl rfl rfl rfl (by decide)⟩

/-- Claim C8: whenever `mmalcam_start` succeeds, the capture port's buffer
count is at least `VIDEO_OUTPUT_BUFFERS_NUM` (3) — raised to 3 exactly when
the firmware reported fewer, left at the reported value otherwise — and the
buffer pool was created with exactly that resulting count. -/
theorem capture_buffer_count_spec (cfg : MmalConfig) (env : StartEnv)
    (t : Int) (h : (mmalcam_start cfg env t).1 = MMALCAM_OK) :
    (mmalcam_start cfg env t).2.bufferPool =
      some ((mmalcam_start cfg env t).2.capturePortBufferNum) ∧
    VIDEO_OUTPUT_BUFFERS_NUM ≤
      (mmalcam_start cfg env t).2.capturePortBufferNum ∧
    (env.reportedBufferNum < VIDEO_OUTPUT_BUFFERS_NUM →
      (mmalcam_start cfg env t).2.capturePortBufferNum =
        VIDEO_OUTPUT_BUFFERS_NUM) ∧
    (VIDEO_OUTPUT_BUFFERS_NUM ≤ env.reportedBufferNum →
      (mmalcam_start cfg env t).2.capturePortBufferNum =
        env.reportedBufferNum) := by
  rcases start_shape cfg env t with hs | hs
  · rw [h] at hs
    exact absurd hs (by decide)
  · rw [hs]
    exact ⟨rfl, adjustBufferNum_ge env.reportedBufferNum,
      adjustBufferNum_of_lt env.reportedBufferNum,
      adjustBufferNum_of_ge env.reportedBufferNum⟩

/-- Witness for `capture_buffer_count_spec`: the all-success environment
reporting 3 buffers yields a pool of exactly the (unchanged) count 3. -/
theorem capture_buffer_count_spec_witness :
    (mmalcam_start cfgVideo envAllOk 0).1 = MMALCAM_OK ∧
    ((mmalcam_start cfgVideo envAllOk 0).2.bufferPool =
      some ((mmalcam_start cfgVideo envAllOk 0).2.capturePortBufferNum) ∧
     VIDEO_OUTPUT_BUFFERS_NUM ≤
      (mmalcam_start cfgVideo envAllOk 0).2.capturePortBufferNum ∧
     (envAllOk.reportedBufferNum < VIDEO_OUTPUT_BUFFERS_NUM →
      (mmalcam_start cfgVideo envAllOk 0).2.capturePortBufferNum =
        VIDEO_OUTPUT_BUFFERS_NUM) ∧
     (VIDEO_OUTPUT_BUFFERS_NUM ≤ envAllOk.reportedBufferNum →
      (mmalcam_start cfgVideo envAllOk 0).2.capturePortBufferNum =
        envAllOk.reportedBufferNum)) :=
  ⟨by decide, capture_buffer_count_spec cfgVideo envAllOk 0 (by decide)⟩

/-- Claim C9: in still mode (with the parameter set allocated), the minimum
inter-capture delay recorded in the context is `minimum_frame_time * 1000`
milliseconds when a positive override is configured, and `1000 / frame_limit`
milliseconds (C truncating integer division) otherwise. -/
theorem still_delay_from_config (cfg : MmalConfig) (env : StartEnv) (t : Int)
    (hp : env.paramsAllocOk = true) (hst : cfg.use_still = true) :
    (mmalcam_start cfg env t).2.stillDelay =
      if 0 < cfg.minimum_frame_time then cfg.minimum_frame_time * 1000
      else Int.tdiv 1000 cfg.frame_limit := by
  rw [start_stillDelay cfg env t hp]
  simp [startInit, initState, hst, still_capture_delay]

/-- Witness for `still_delay_from_config`: still mode at 15 fps with no
override gives a delay of `1000 / 15 = 66` ms. -/
theorem still_delay_from_config_witness :
    envAllOk.paramsAllocOk = true ∧ cfgStill.use_still = true ∧
    (mmalcam_start cfgStill envAllOk 0).2.stillDelay =
      if 0 < cfgStill.minimum_frame_time then
        cfgStill.minimum_frame_time * 1000
      else Int.tdiv 1000 cfgStill.frame_limit :=
  ⟨rfl, rfl, still_delay_from_config cfgStill envAllOk 0 rfl rfl⟩

end Mmalcam
